import Mathlib

/-!
Shallow embedding of the donation-leaderboard backend (`src/index.js`).

The ledger (Firebase subtree `payments/`) is modelled as an association
list from child key to stored record, in insertion order — JS objects
enumerate string keys in insertion order, which is the order the
`for (const key in data)` loops visit entries.  Monetary amounts are
rationals (JS numbers restricted to the decimal values the code
manipulates); times are naturals.  Fallible externals (signature
verification, reCAPTCHA, Stripe, the Firebase write) enter the handlers
as explicit outcome parameters.
-/

/-- A stored payment record under `payments/<key>`.  Fields are optional
because the aggregation code defends against records missing `name` or
`total`; records written by the webhook handler have every field set. -/
structure PaymentEntry where
  id : Option String
  name : Option String
  total : Option ℚ
  timestamp : Option Nat
  deriving DecidableEq, Repr

/-- The `payments/` subtree: child key ↦ record, in insertion order. -/
def Ledger := List (String × PaymentEntry)
  deriving DecidableEq

/-- JS truthiness of an optional string: `undefined` and `""` are falsy. -/
def truthyStr : Option String → Bool
  | none => false
  | some s => !(s == "")

/-- JS truthiness of an optional number: `undefined` and `0` are falsy. -/
def truthyNum : Option ℚ → Bool
  | none => false
  | some q => !(q == 0)

/-- `x || d` for an optional string `x`: the JS default-on-falsy idiom
(`session.metadata?.name || "Anonymous"`). -/
def truthyOr (o : Option String) (d : String) : String :=
  match o with
  | none => d
  | some s => if s = "" then d else s

/-- `db.ref(`payments/${k}`).set(v)`: overwrite the record at key `k`,
creating it if absent (Firebase `set` is an unconditional overwrite). -/
def setPayment : Ledger → String → PaymentEntry → Ledger
  | [], k, v => [(k, v)]
  | (k', v') :: t, k, v =>
    if k' = k then (k, v) :: t else (k', v') :: setPayment t k v

/-- `getTier` (src/index.js:84-89): tier from a dollar amount,
thresholds checked high to low, first match wins. -/
def getTier (amount : ℚ) : String :=
  if amount ≥ 200 then "Whale"
  else if amount ≥ 50 then "Shark"
  else if amount ≥ 1 then "Shrimp"
  else "Unknown"

/-- `session.metadata` of a checkout session (may be absent). -/
structure Metadata where
  name : Option String
  paymentId : Option String
  deriving DecidableEq, Repr

/-- `event.data.object` for a checkout-session event: the gross amount in
minor units (cents) and the optional metadata. -/
structure CheckoutSession where
  amount_total : Int
  metadata : Option Metadata
  deriving DecidableEq, Repr

/-- A Stripe event as seen by the webhook handler. -/
structure StripeEvent where
  type : String
  object : CheckoutSession
  deriving DecidableEq, Repr

/-- Outcome of `POST /webhook`: `400` with error text when
`constructEvent` throws, otherwise `200 {received: true}`. -/
inductive WebhookResult where
  | sigError (msg : String)
  | ack
  deriving DecidableEq, Repr

/-- HTTP status of a webhook outcome. -/
def WebhookResult.status : WebhookResult → Nat
  | sigError _ => 400
  | ack => 200

/-- The `POST /webhook` handler (src/index.js:92-128).
`sigResult` is the outcome of `stripe.webhooks.constructEvent` (`.error`
= the signature check threw); `now` is `Date.now()`; `freshId` is the
`uuidv4()` fallback; `writeOk` is whether the Firebase `set` succeeds —
a failed write is caught and only logged.  Returns the new ledger and
the HTTP response. -/
def webhookHandler (sigResult : Except String StripeEvent) (L : Ledger)
    (now : Nat) (freshId : String) (writeOk : Bool) :
    Ledger × WebhookResult :=
  match sigResult with
  | .error msg => (L, .sigError msg)
  | .ok ev =>
    if ev.type = "checkout.session.completed" then
      let s := ev.object
      let name := truthyOr (s.metadata.bind Metadata.name) "Anonymous"
      let amountInDollars : ℚ := (s.amount_total : ℚ) / 100
      let paymentId := truthyOr (s.metadata.bind Metadata.paymentId) freshId
      let entry : PaymentEntry :=
        { id := some paymentId, name := some name,
          total := some amountInDollars, timestamp := some now }
      let L' := if writeOk then setPayment L paymentId entry else L
      (L', .ack)
    else (L, .ack)

/-! ### Leaderboard aggregation (`GET /leaderboard`, src/index.js:212-257) -/

/-- `aggregated[name] += total` on an insertion-ordered object: add to the
existing group, or append a new group at the end. -/
def addTo : List (String × ℚ) → String → ℚ → List (String × ℚ)
  | [], n, q => [(n, q)]
  | (n', q') :: t, n, q =>
    if n' = n then (n', q' + q) :: t else (n', q') :: addTo t n q

/-- The `for (const key in data)` aggregation loop: skip records whose
`name` or `total` is falsy, accumulate the rest per name. -/
def aggregateFrom (acc : List (String × ℚ)) : Ledger → List (String × ℚ)
  | [] => acc
  | (_, e) :: t =>
    if truthyStr e.name ∧ truthyNum e.total then
      aggregateFrom (addTo acc (e.name.getD "") (e.total.getD 0)) t
    else
      aggregateFrom acc t

/-- Aggregate totals per donor name, in first-appearance order
(`Object.entries` enumeration order). -/
def aggregate (L : Ledger) : List (String × ℚ) := aggregateFrom [] L

/-- `x.toFixed(2)` followed by `parseFloat`: the numeric value rounded to
two decimals, ties rounded up (ECMAScript `toFixed` picks the larger
candidate on a tie). -/
def round2 (q : ℚ) : ℚ := (Int.floor (q * 100 + 1 / 2) : ℚ) / 100

/-- A `{name, score}` element of the pre-rank leaderboard array; `score`
is the numeric value `parseFloat(entry.score)` recovers from the
two-decimal string the code stores. -/
structure ScoredEntry where
  name : String
  score : ℚ
  deriving DecidableEq, Repr

/-- The sort comparator `(a, b) => parseFloat(b.score) - parseFloat(a.score)`
as a relation: `a` may precede `b` when `a`'s score is at least `b`'s. -/
def scoreGe (a b : ScoredEntry) : Prop := b.score ≤ a.score

instance : DecidableRel scoreGe :=
  fun a b => (inferInstance : Decidable (b.score ≤ a.score))

instance : IsTotal ScoredEntry scoreGe :=
  ⟨fun a b => le_total b.score a.score⟩

instance : IsTrans ScoredEntry scoreGe :=
  ⟨fun _ _ _ h₁ h₂ => le_trans h₂ h₁⟩

/-- An element of the ranked leaderboard response. -/
structure LeaderboardEntry where
  rank : Nat
  name : String
  score : ℚ
  tier : String
  deriving DecidableEq, Repr

/-- `leaderboard.map((entry, index) => ({rank: index + 1, ..., tier}))`:
attach 1-based positional ranks and the tier of the numeric score,
starting from index `i`. -/
def assignRanks : Nat → List ScoredEntry → List LeaderboardEntry
  | _, [] => []
  | i, e :: t =>
    { rank := i + 1, name := e.name, score := e.score,
      tier := getTier e.score } :: assignRanks (i + 1) t

/-- The `GET /leaderboard` computation: aggregate per name, render scores
to two decimals, stable-sort descending by numeric score (JS
`Array.prototype.sort` is stable; `insertionSort` with `scoreGe` places
an earlier element before later equal-score ones, reproducing it), then
attach ranks and tiers. -/
def leaderboardOf (L : Ledger) : List LeaderboardEntry :=
  assignRanks 0
    (List.insertionSort scoreGe
      ((aggregate L).map fun p => ⟨p.1, round2 p.2⟩))

/-! ### Stats (`GET /stats`, src/index.js:259-300) -/

/-- The `GET /stats` response body. -/
structure StatsResult where
  shrimpCount : Nat
  sharkCount : Nat
  whaleCount : Nat
  totalMatches : Nat
  deriving DecidableEq, Repr

/-- The per-tier counting loop: skip records with a falsy `total`,
classify `entry.total / 100` (the code divides the stored amount by 100
again) and bump the matching bucket; `Unknown` bumps none.  Returns
`(shrimp, shark, whale)`. -/
def tierCounts : Ledger → Nat × Nat × Nat
  | [] => (0, 0, 0)
  | (_, e) :: t =>
    let r := tierCounts t
    if truthyNum e.total then
      let tier := getTier (e.total.getD 0 / 100)
      if tier = "Whale" then (r.1, r.2.1, r.2.2 + 1)
      else if tier = "Shark" then (r.1, r.2.1 + 1, r.2.2)
      else if tier = "Shrimp" then (r.1 + 1, r.2.1, r.2.2)
      else r
    else r

/-- The `GET /stats` handler: bucket counts plus
`totalMatches = Object.keys(data).length`. -/
def statsOf (L : Ledger) : StatsResult :=
  let c := tierCounts L
  { shrimpCount := c.1, sharkCount := c.2.1, whaleCount := c.2.2,
    totalMatches := L.length }

/-! ### Checkout-session creation (`POST /create-checkout-session`,
src/index.js:131-192) -/

/-- Value a decimal digit string denotes. -/
def digitsVal (cs : List Char) : Nat :=
  cs.foldl (fun acc c => acc * 10 + (c.toNat - 48)) 0

/-- Model of JS `parseFloat` on the plain decimal numerals this route
receives: optional sign, digits, optional `.` and fraction digits;
trailing characters are ignored as `parseFloat` ignores them.  `none`
is `NaN` (no digits could be consumed).  Exponent notation, leading
whitespace and `Infinity` are outside the modelled fragment. -/
def parseFloat (s : String) : Option ℚ :=
  let (sign, cs) : ℚ × List Char :=
    match s.data with
    | '-' :: t => (-1, t)
    | '+' :: t => (1, t)
    | cs => (1, cs)
  let ip := cs.takeWhile Char.isDigit
  let rest := cs.dropWhile Char.isDigit
  let fp :=
    match rest with
    | '.' :: t => t.takeWhile Char.isDigit
    | _ => []
  if ip.isEmpty ∧ fp.isEmpty then none
  else some (sign * ((digitsVal ip : ℚ) + (digitsVal fp : ℚ) / (10 : ℚ) ^ fp.length))

/-- `Math.round`: nearest integer, ties toward positive infinity. -/
def jsRound (q : ℚ) : Int := Int.floor (q + 1 / 2)

/-- `Math.round(parseFloat(amount) * 100)` — the minor-unit amount, or
`none` when `parseFloat` yielded `NaN`. -/
def checkoutCents (amount : String) : Option Int :=
  (parseFloat amount).map fun q => jsRound (q * 100)

/-- `true` when the amount validation rejects: `amountInCents` is `NaN`
or below 50. -/
def amountRejected (amount : String) : Bool :=
  match checkoutCents amount with
  | none => true
  | some c => decide (c < 50)

/-- `data.success`/`data.score` of the reCAPTCHA verification response. -/
structure RecaptchaData where
  success : Bool
  score : Option ℚ
  deriving DecidableEq, Repr

/-- Outcome of `POST /create-checkout-session`. -/
inductive CheckoutResult where
  | badRequest (msg : String)
  | forbidden (msg : String)
  | serverError (msg : String)
  | session (unitAmount : Int) (name : String) (paymentId : String)
  deriving DecidableEq, Repr

/-- HTTP status of a checkout outcome (`session` answers `200 {id}`). -/
def CheckoutResult.status : CheckoutResult → Nat
  | badRequest _ => 400
  | forbidden _ => 403
  | serverError _ => 500
  | session _ _ _ => 200

/-- Whether a Stripe checkout session was created. -/
def CheckoutResult.isSession : CheckoutResult → Bool
  | session _ _ _ => true
  | _ => false

/-- The `POST /create-checkout-session` handler.  `recaptcha` is the
verification response (`none` = the fetch threw); `stripeOk` is whether
`stripe.checkout.sessions.create` succeeds; `paymentId` is the
`uuidv4()` generated for the session metadata.  Field presence, the
reCAPTCHA gate, then amount validation `Math.round(parseFloat(amount)
* 100)` rejecting `NaN` or anything under 50 cents, then session
creation with `unit_amount = amountInCents` and
`metadata = {name, paymentId}`. -/
def createCheckoutSession (name amount token : String)
    (recaptcha : Option RecaptchaData) (stripeOk : Bool)
    (paymentId : String) : CheckoutResult :=
  if name = "" ∨ amount = "" ∨ token = "" then
    .badRequest "Name, amount, and reCAPTCHA token are required"
  else
    match recaptcha with
    | none => .serverError "Failed to verify reCAPTCHA"
    | some d =>
      if !d.success || (match d.score with
                        | some sc => decide (sc < 1 / 2)
                        | none => false) then
        .forbidden "reCAPTCHA verification failed"
      else
        match parseFloat amount with
        | none => .badRequest "Amount must be a valid number and at least $0.50"
        | some q =>
          let amountInCents := jsRound (q * 100)
          if amountInCents < 50 then
            .badRequest "Amount must be a valid number and at least $0.50"
          else if stripeOk then
            .session amountInCents name paymentId
          else
            .serverError "Failed to create checkout session"

/-! ### Theorems -/

section RatComputable

attribute [local semireducible] Rat.mul Rat.inv Rat.add Rat.sub

theorem setPayment_setPayment (L : Ledger) (k : String) (v₁ v₂ : PaymentEntry) :
    setPayment (setPayment L k v₁) k v₂ = setPayment L k v₂ := by
  induction L with
  | nil => simp [setPayment]
  | cons h t ih =>
    obtain ⟨k', v'⟩ := h
    by_cases hk : k' = k <;> simp [setPayment, hk, ih]

theorem truthyOr_some_ne (s d : String) (h : s ≠ "") : truthyOr (some s) d = s := by
  simp [truthyOr, h]

theorem webhookHandler_completed (ev : StripeEvent) (L : Ledger) (t : Nat) (f : String)
    (htype : ev.type = "checkout.session.completed") :
    webhookHandler (.ok ev) L t f true =
      (setPayment L (truthyOr (ev.object.metadata.bind Metadata.paymentId) f)
        { id := some (truthyOr (ev.object.metadata.bind Metadata.paymentId) f),
          name := some (truthyOr (ev.object.metadata.bind Metadata.name) "Anonymous"),
          total := some ((ev.object.amount_total : ℚ) / 100),
          timestamp := some t }, .ack) := by
  simp [webhookHandler, htype]

/-- C1 (amended): re-delivering a `checkout.session.completed` event that
carries a non-empty `paymentId` writes the same ledger key: the re-delivery
overwrites in place, so two deliveries leave exactly the ledger of a single
delivery performed at the re-delivery time (hence no duplicate is created
and, when the two deliveries are stamped with the same clock time, the
state is identical to a single delivery's), and both deliveries are
acknowledged with `200 {received: true}`. -/
theorem webhook_redelivery_overwrites (L : Ledger) (ev : StripeEvent) (pid : String)
    (t₁ t₂ : Nat) (f₁ f₂ : String)
    (htype : ev.type = "checkout.session.completed")
    (hpid : ev.object.metadata.bind Metadata.paymentId = some pid)
    (hne : pid ≠ "") :
    webhookHandler (.ok ev) (webhookHandler (.ok ev) L t₁ f₁ true).1 t₂ f₂ true
      = webhookHandler (.ok ev) L t₂ f₂ true
    ∧ (webhookHandler (.ok ev) (webhookHandler (.ok ev) L t₁ f₁ true).1 t₂ f₂ true).2
        = WebhookResult.ack
    ∧ (webhookHandler (.ok ev) L t₁ f₁ true).2 = WebhookResult.ack := by
  have hid : truthyOr (ev.object.metadata.bind Metadata.paymentId) f₁ = pid := by
    rw [hpid]; exact truthyOr_some_ne pid f₁ hne
  have hid₂ : truthyOr (ev.object.metadata.bind Metadata.paymentId) f₂ = pid := by
    rw [hpid]; exact truthyOr_some_ne pid f₂ hne
  refine ⟨?_, ?_, ?_⟩
  · rw [webhookHandler_completed ev L t₁ f₁ htype]
    rw [webhookHandler_completed ev _ t₂ f₂ htype,
        webhookHandler_completed ev L t₂ f₂ htype]
    simp only [hid, hid₂]
    rw [setPayment_setPayment]
  · rw [webhookHandler_completed ev _ t₂ f₂ htype]
  · rw [webhookHandler_completed ev L t₁ f₁ htype]

/-- C1 witness: the re-delivery theorem applied to a concrete event. -/
theorem webhook_redelivery_overwrites_witness :
    webhookHandler
        (.ok ⟨"checkout.session.completed", ⟨2500, some ⟨some "N", some "p1"⟩⟩⟩)
        (webhookHandler
          (.ok ⟨"checkout.session.completed", ⟨2500, some ⟨some "N", some "p1"⟩⟩⟩)
          [] 5 "u1" true).1 7 "u2" true
      = webhookHandler
          (.ok ⟨"checkout.session.completed", ⟨2500, some ⟨some "N", some "p1"⟩⟩⟩)
          [] 7 "u2" true :=
  (webhook_redelivery_overwrites []
    ⟨"checkout.session.completed", ⟨2500, some ⟨some "N", some "p1"⟩⟩⟩
    "p1" 5 7 "u1" "u2" rfl rfl (by decide)).1

/-- C1 counterexample: the claim as stated is false — the handler stamps
`Date.now()` into the stored record, so re-delivering the same event at a
later clock time leaves a ledger that differs (in `timestamp`) from the
state after a single delivery. -/
theorem webhook_redelivery_state_differs :
    (webhookHandler
        (.ok ⟨"checkout.session.completed", ⟨1000, some ⟨some "N", some "p1"⟩⟩⟩)
        (webhookHandler
          (.ok ⟨"checkout.session.completed", ⟨1000, some ⟨some "N", some "p1"⟩⟩⟩)
          [] 0 "u" true).1 1 "u" true).1
      ≠ (webhookHandler
          (.ok ⟨"checkout.session.completed", ⟨1000, some ⟨some "N", some "p1"⟩⟩⟩)
          [] 0 "u" true).1 := by
  decide

/-- C7: when the Firebase write fails during handling of a validly signed
`checkout.session.completed` event, the error is swallowed: the handler
returns normally with the ledger unchanged and still acknowledges
`200 {received: true}`. -/
theorem webhook_write_failure_still_acks (L : Ledger) (ev : StripeEvent)
    (t : Nat) (f : String)
    (htype : ev.type = "checkout.session.completed") :
    webhookHandler (.ok ev) L t f false = (L, WebhookResult.ack)
    ∧ WebhookResult.ack.status = 200 := by
  constructor
  · simp [webhookHandler, htype]
  · rfl

/-- C7 witness: the write-failure theorem at a concrete event. -/
theorem webhook_write_failure_still_acks_witness :
    webhookHandler
        (.ok ⟨"checkout.session.completed", ⟨1000, some ⟨some "N", some "p1"⟩⟩⟩)
        [] 0 "u" false
      = ([], WebhookResult.ack) :=
  (webhook_write_failure_still_acks []
    ⟨"checkout.session.completed", ⟨1000, some ⟨some "N", some "p1"⟩⟩⟩
    0 "u" rfl).1

/-- C8: a webhook request whose signature verification throws is answered
`400` with the error text, and the ledger is left untouched — no write
happens on any rejection path. -/
theorem webhook_bad_signature_no_write :
    (∀ (L : Ledger) (t : Nat) (f msg : String) (w : Bool),
        webhookHandler (.error msg) L t f w = (L, .sigError msg))
    ∧ (∀ msg, (WebhookResult.sigError msg).status = 400) :=
  ⟨fun _ _ _ _ _ => rfl, fun _ => rfl⟩

/-- C3: the `/stats` handler divides the stored total by 100 again before
classifying, although totals are stored in dollars; a ledger holding the
record of a single $200 donation — which `getTier` classifies `Whale` —
is reported as one Shrimp and zero Whales. -/
theorem stats_misclassifies_dollar_totals :
    statsOf [("p1", ⟨some "p1", some "Donor", some 200, some 0⟩)]
        = ⟨1, 0, 0, 1⟩
    ∧ getTier 200 = "Whale" := by
  constructor <;> decide

/-- C5: a ledger with entries `{A: 10, A: 15, B: 5}` under three distinct
ids yields the leaderboard `A: 25 (rank 1), B: 5 (rank 2)` — grouped by
name with totals summed per group. -/
theorem leaderboard_aggregation_example :
    leaderboardOf
        [("id1", ⟨some "id1", some "A", some 10, some 100⟩),
         ("id2", ⟨some "id2", some "A", some 15, some 200⟩),
         ("id3", ⟨some "id3", some "B", some 5, some 300⟩)]
      = [⟨1, "A", 25, "Shrimp"⟩, ⟨2, "B", 5, "Shrimp"⟩] := by
  decide


theorem assignRanks_length (l : List ScoredEntry) (s : Nat) :
    (assignRanks s l).length = l.length := by
  induction l generalizing s with
  | nil => rfl
  | cons e t ih => simp [assignRanks, ih]

theorem assignRanks_get_rank (l : List ScoredEntry) (s j : Nat)
    (h : j < (assignRanks s l).length) :
    ((assignRanks s l).get ⟨j, h⟩).rank = s + j + 1 := by
  induction l generalizing s j with
  | nil => simp [assignRanks] at h
  | cons e t ih =>
    cases j with
    | zero => rfl
    | succ j =>
      have h' : j < (assignRanks (s + 1) t).length := by
        simpa [assignRanks] using Nat.lt_of_succ_lt_succ h
      have := ih (s + 1) j h'
      simpa [assignRanks, Nat.add_assoc, Nat.add_comm, Nat.add_left_comm] using this

theorem assignRanks_get_score (l : List ScoredEntry) (s j : Nat)
    (h : j < (assignRanks s l).length) (h' : j < l.length) :
    ((assignRanks s l).get ⟨j, h⟩).score = (l.get ⟨j, h'⟩).score := by
  induction l generalizing s j with
  | nil => simp [assignRanks] at h
  | cons e t ih =>
    cases j with
    | zero => rfl
    | succ j =>
      have hh : j < (assignRanks (s + 1) t).length := by
        simpa [assignRanks] using Nat.lt_of_succ_lt_succ h
      simpa [assignRanks] using ih (s + 1) j hh (Nat.lt_of_succ_lt_succ h')

/-- C2 (amended): `rank` is the 1-based position in the descending-sorted
sequence, so ranks are the consecutive numbers 1, 2, … with no number
skipped — but donors with equal summed totals receive distinct
consecutive ranks, not a shared dense rank. -/
theorem leaderboard_ranks_positional (L : Ledger) (i : Nat)
    (h : i < (leaderboardOf L).length) :
    ((leaderboardOf L).get ⟨i, h⟩).rank = i + 1 := by
  revert h
  simp only [leaderboardOf]
  intro h
  simpa using assignRanks_get_rank _ 0 i h

/-- C2 witness: the positional-rank theorem at a concrete ledger. -/
theorem leaderboard_ranks_positional_witness :
    0 < (leaderboardOf [("k1", ⟨none, some "A", some 10, none⟩)]).length
    ∧ ((leaderboardOf [("k1", ⟨none, some "A", some 10, none⟩)]).get
        ⟨0, by decide⟩).rank = 1 :=
  ⟨by decide,
   leaderboard_ranks_positional [("k1", ⟨none, some "A", some 10, none⟩)] 0 (by decide)⟩

/-- C2 counterexample: two donors with equal summed totals do not receive
the same rank — the code assigns `rank = index + 1`, so the tied donors
get ranks 1 and 2 where a dense rank would give both rank 1. -/
theorem leaderboard_rank_ties_not_dense :
    leaderboardOf [("k1", ⟨none, some "A", some 10, none⟩),
                   ("k2", ⟨none, some "B", some 10, none⟩)]
      = [⟨1, "A", 10, "Shrimp"⟩, ⟨2, "B", 10, "Shrimp"⟩]
    ∧ ¬ (∀ a ∈ leaderboardOf [("k1", ⟨none, some "A", some 10, none⟩),
                              ("k2", ⟨none, some "B", some 10, none⟩)],
         ∀ b ∈ leaderboardOf [("k1", ⟨none, some "A", some 10, none⟩),
                              ("k2", ⟨none, some "B", some 10, none⟩)],
         a.score = b.score → a.rank = b.rank) := by
  constructor <;> decide

/-- C4: `getTier` is a pure total function with inclusive lower bounds
checked high to low, first match wins: `≥ 200` is Whale, then `≥ 50` is
Shark (so exactly 50.00 is Shark), then `≥ 1` is Shrimp, else Unknown;
with the spec's boundary values 0.99, 1.00, 49.99, 50.00, 199.99 and
200.00 classifying as stated. -/
theorem getTier_thresholds :
    (∀ q : ℚ, 200 ≤ q → getTier q = "Whale")
    ∧ (∀ q : ℚ, q < 200 → 50 ≤ q → getTier q = "Shark")
    ∧ (∀ q : ℚ, q < 50 → 1 ≤ q → getTier q = "Shrimp")
    ∧ (∀ q : ℚ, q < 1 → getTier q = "Unknown")
    ∧ getTier (99 / 100) = "Unknown" ∧ getTier 1 = "Shrimp"
    ∧ getTier (4999 / 100) = "Shrimp" ∧ getTier 50 = "Shark"
    ∧ getTier (19999 / 100) = "Shark" ∧ getTier 200 = "Whale" := by
  refine ⟨fun q h => ?_, fun q h₁ h₂ => ?_, fun q h₁ h₂ => ?_, fun q h => ?_,
    by decide, by decide, by decide, by decide, by decide, by decide⟩ <;>
    simp only [getTier, ge_iff_le] <;> split_ifs <;> first | rfl | linarith

/-- C4 witness: the threshold theorem applied at concrete totals. -/
theorem getTier_thresholds_witness :
    getTier 250 = "Whale" ∧ getTier 60 = "Shark"
    ∧ getTier 2 = "Shrimp" ∧ getTier 0 = "Unknown" :=
  ⟨getTier_thresholds.1 250 (by norm_num),
   getTier_thresholds.2.1 60 (by norm_num) (by norm_num),
   getTier_thresholds.2.2.1 2 (by norm_num) (by norm_num),
   getTier_thresholds.2.2.2.1 0 (by norm_num)⟩

/-- C6: the leaderboard is ordered by descending numeric score — at any
two positions `i < j` the score at `j` is at most the score at `i` (the
comparator subtracts `parseFloat` values, i.e. compares numbers, not the
rendered strings); in particular a donor with total 10.00 sorts above a
donor with total 9.00 even though the strings "10.00" < "9.00"
lexicographically. -/
theorem leaderboard_sorted_descending :
    (∀ (L : Ledger) (i j : Nat) (hi : i < (leaderboardOf L).length)
        (hj : j < (leaderboardOf L).length), i < j →
        ((leaderboardOf L).get ⟨j, hj⟩).score ≤ ((leaderboardOf L).get ⟨i, hi⟩).score)
    ∧ leaderboardOf [("k1", ⟨none, some "Y", some 9, none⟩),
                     ("k2", ⟨none, some "X", some 10, none⟩)]
        = [⟨1, "X", 10, "Shrimp"⟩, ⟨2, "Y", 9, "Shrimp"⟩] := by
  constructor
  · intro L i j hi hj hij
    revert hi hj
    simp only [leaderboardOf]
    intro hi hj
    have hs := List.sorted_insertionSort scoreGe
      ((aggregate L).map fun p => (⟨p.1, round2 p.2⟩ : ScoredEntry))
    have hi' : i < (List.insertionSort scoreGe
        ((aggregate L).map fun p => (⟨p.1, round2 p.2⟩ : ScoredEntry))).length := by
      simpa [assignRanks_length] using hi
    have hj' : j < (List.insertionSort scoreGe
        ((aggregate L).map fun p => (⟨p.1, round2 p.2⟩ : ScoredEntry))).length := by
      simpa [assignRanks_length] using hj
    rw [assignRanks_get_score _ 0 i hi hi', assignRanks_get_score _ 0 j hj hj']
    exact hs.rel_get_of_lt (a := ⟨i, hi'⟩) (b := ⟨j, hj'⟩) hij
  · decide

/-- C6 witness: the sortedness theorem at a concrete two-donor ledger. -/
theorem leaderboard_sorted_descending_witness :
    ((leaderboardOf [("k1", ⟨none, some "Y", some 9, none⟩),
                     ("k2", ⟨none, some "X", some 10, none⟩)]).get
        ⟨1, by decide⟩).score
      ≤ ((leaderboardOf [("k1", ⟨none, some "Y", some 9, none⟩),
                         ("k2", ⟨none, some "X", some 10, none⟩)]).get
        ⟨0, by decide⟩).score :=
  leaderboard_sorted_descending.1
    [("k1", ⟨none, some "Y", some 9, none⟩), ("k2", ⟨none, some "X", some 10, none⟩)]
    0 1 (by decide) (by decide) (by decide)


theorem tierCounts_sum_le (L : Ledger) :
    (tierCounts L).1 + (tierCounts L).2.1 + (tierCounts L).2.2 ≤ L.length := by
  induction L with
  | nil => simp [tierCounts]
  | cons h t ih =>
    obtain ⟨k, e⟩ := h
    simp only [tierCounts, List.length_cons]
    split_ifs <;> (try simp) <;> omega

/-- C10: `totalMatches` counts every stored record (`Object.keys(data).length`),
while the tier loop skips records with a falsy `total` and `Unknown`
entries bump no bucket, so the three tier counts sum to at most
`totalMatches` — and strictly less for a ledger holding a record with no
`total`. -/
theorem stats_totalMatches_counts_all :
    (∀ L : Ledger, (statsOf L).totalMatches = L.length)
    ∧ (∀ L : Ledger,
        (statsOf L).shrimpCount + (statsOf L).sharkCount + (statsOf L).whaleCount
          ≤ (statsOf L).totalMatches)
    ∧ (statsOf [("a", ⟨none, some "N", none, none⟩)]).shrimpCount
        + (statsOf [("a", ⟨none, some "N", none, none⟩)]).sharkCount
        + (statsOf [("a", ⟨none, some "N", none, none⟩)]).whaleCount
        < (statsOf [("a", ⟨none, some "N", none, none⟩)]).totalMatches :=
  ⟨fun _ => rfl, fun L => tierCounts_sum_le L, by decide⟩

/-- C9: `"25.50"` converts to a processor-facing `unit_amount` of exactly
2550 minor units (`Math.round(parseFloat(amount) * 100)`), and any amount
that does not parse to a number or whose minor-unit value is below 50 is
answered `400` with no checkout session created. -/
theorem checkout_amount_conversion :
    (∀ (name token pid : String), name ≠ "" → token ≠ "" →
        createCheckoutSession name "25.50" token (some ⟨true, none⟩) true pid
          = CheckoutResult.session 2550 name pid)
    ∧ (∀ (name amount token pid : String) (ok : Bool), name ≠ "" → token ≠ "" →
        amountRejected amount = true →
        (createCheckoutSession name amount token (some ⟨true, none⟩) ok pid).status = 400
        ∧ (createCheckoutSession name amount token (some ⟨true, none⟩) ok pid).isSession
            = false) := by
  constructor
  · intro name token pid hname htoken
    have hpf : parseFloat "25.50" = some (51 / 2) := by decide
    have hc : jsRound ((51 : ℚ) / 2 * 100) = 2550 := by decide
    simp [createCheckoutSession, hname, htoken, hpf, hc]
  · intro name amount token pid ok hname htoken hrej
    by_cases hamt : amount = ""
    · subst hamt
      simp [createCheckoutSession, CheckoutResult.status, CheckoutResult.isSession]
    · rcases hq : parseFloat amount with _ | q
      · simp [createCheckoutSession, hname, hamt, htoken, hq,
          CheckoutResult.status, CheckoutResult.isSession]
      · have hlt : jsRound (q * 100) < 50 := by
          simpa [amountRejected, checkoutCents, hq] using hrej
        simp [createCheckoutSession, hname, hamt, htoken, hq, hlt,
          CheckoutResult.status, CheckoutResult.isSession]

/-- C9 witness: the conversion theorem at `"25.50"` and the rejection at
`"0.10"` (10 minor units). -/
theorem checkout_amount_conversion_witness :
    createCheckoutSession "n" "25.50" "t" (some ⟨true, none⟩) true "p"
        = CheckoutResult.session 2550 "n" "p"
    ∧ (createCheckoutSession "n" "0.10" "t" (some ⟨true, none⟩) true "p").status = 400
    ∧ (createCheckoutSession "n" "0.10" "t" (some ⟨true, none⟩) true "p").isSession
        = false :=
  ⟨checkout_amount_conversion.1 "n" "t" "p" (by decide) (by decide),
   checkout_amount_conversion.2 "n" "0.10" "t" "p" true (by decide) (by decide)
     (by decide)⟩

end RatComputable
